import Mathlib

/-!
Verification development for the `data_viz` helper collection.

The Python sources (`data_viz.py`, `plots.py`, `utilities.py`, `format.py`,
`geospatial.py`) are shallowly embedded: each helper becomes a total Lean
function over explicit data, and a raised Python exception becomes an
`Except PyErr` error value.  Machine floats, which in this code base only
carry small counts, coordinates and alpha levels, are modelled by `ℚ`;
`NaN` entries produced by masking are modelled by `Option`.  The rendering
side effects (drawing on a Matplotlib axis) are not observable data; each
embedded function instead returns the data it would hand to the rendering
layer (plotted sub-series, legend configuration, polygon table, ...).
-/

/-- The Python exceptions that the embedded functions can raise. -/
inductive PyErr where
  | assertionError (msg : String)
  | valueError (msg : String)
  | keyError (key : String)
  | nameError (var : String)
  | indexError
  | exception (msg : String)
deriving DecidableEq, Repr

deriving instance DecidableEq for Except

/-- Fuel-driven worker for `pyUnique`; the fuel starts at the list length
and always suffices, it only makes the recursion structural. -/
def pyUniqueAux {α : Type} [DecidableEq α] : ℕ → List α → List α
  | _, [] => []
  | 0, _ :: _ => []
  | fuel + 1, a :: rest => a :: pyUniqueAux fuel (rest.filter (fun b => b ≠ a))

/-- Model of `pandas.Series.unique` / `pandas.Index.unique`: the distinct
elements in order of first appearance. -/
def pyUnique {α : Type} [DecidableEq α] (l : List α) : List α :=
  pyUniqueAux l.length l

/-- Auxiliary for Python slicing `l[::s]`: the counter records how many
further elements must be skipped before the next one is taken. -/
def sliceStepAux {α : Type} (s : ℕ) : ℕ → List α → List α
  | _, [] => []
  | 0, a :: rest => a :: sliceStepAux s (s - 1) rest
  | k + 1, _ :: rest => sliceStepAux s k rest

/-- Python slicing `l[::s]` for a positive step `s`: every `s`-th element,
starting from the first. -/
def sliceStep {α : Type} (l : List α) (s : ℕ) : List α :=
  sliceStepAux s 0 l

/-- A month-level time series: one observation per calendar month, starting
at month `startMonth` (1–12) of year `startYear`.  This realises the data
model invariant of the spec (sorted timestamps advancing by exactly one
month), which `time_overlay_plot` relies on. -/
structure MonthSeries where
  startYear : ℤ
  startMonth : ℕ
  values : List ℤ
deriving DecidableEq, Repr

/-- Calendar year of the `k`-th observation (`ser.index.year[k]`). -/
def MonthSeries.yearAt (ser : MonthSeries) (k : ℕ) : ℤ :=
  ser.startYear + ((ser.startMonth - 1 + k) / 12 : ℕ)

/-- The list `ser.index.year` of per-observation calendar years. -/
def MonthSeries.yearIndex (ser : MonthSeries) : List ℤ :=
  (List.range ser.values.length).map ser.yearAt

/-- `ser.loc[str(y0):str(y1)]`: the observations whose calendar year lies in
the inclusive range `y0 .. y1` (pandas partial-string date slicing on a
sorted monthly index). -/
def monthsInYears (ser : MonthSeries) (y0 y1 : ℤ) : List ℤ :=
  (ser.values.enum.filter
    (fun p => decide (y0 ≤ ser.yearAt p.1) && decide (ser.yearAt p.1 ≤ y1))).map Prod.snd

/-- One plotted sub-series of the overlay plot: its year span, the alpha it
is drawn with, its legend label and its selected values. -/
structure OverlayWindow where
  startYear : ℤ
  endYear : ℤ
  alpha : ℚ
  label : String
  values : List ℤ
deriving DecidableEq, Repr

/-- The legend label of a window: `fr"${y0} \rightarrow {y1}$"` (Matplotlib
math text) when `step_size != 1`, else `fr"${y0}$"`. -/
def windowLabel (step_size : ℕ) (y0 y1 : ℤ) : String :=
  if step_size ≠ 1 then "$" ++ toString y0 ++ " \\rightarrow " ++ toString y1 ++ "$"
  else "$" ++ toString y0 ++ "$"

/-- The `i`-th sub-series constructed by the loop body of
`time_overlay_plot`, over the subsampled `target_years` list `T`. -/
def mkWindow (ser : MonthSeries) (T : List ℤ) (step_size : ℕ)
    (highlight_year : Option ℤ) (bg_alpha : ℚ) (i : ℕ) : OverlayWindow :=
  let y0 := T.getD i 0
  let y1 := T.getD (i + (step_size - 1)) 0
  { startYear := y0
    endYear := y1
    alpha := if some y1 = highlight_year then 1 else bg_alpha
    label := windowLabel step_size y0 y1
    values := monthsInYears ser y0 y1 }

/-- The `for i in range(...)` loop of `time_overlay_plot`.  Re-indexing a
window onto the shared label axis (`set_index(labs)`) raises a pandas
length-mismatch `ValueError` when the window length differs from the label
count; the loop stops at the first such failure. -/
def overlayLoop (ser : MonthSeries) (T : List ℤ) (step_size : ℕ)
    (highlight_year : Option ℤ) (bg_alpha : ℚ) (labsLen : ℕ) :
    List ℕ → Except PyErr (List OverlayWindow)
  | [] => .ok []
  | i :: rest =>
    let w := mkWindow ser T step_size highlight_year bg_alpha i
    if w.values.length = labsLen then
      match overlayLoop ser T step_size highlight_year bg_alpha labsLen rest with
      | .ok ws => .ok (w :: ws)
      | .error e => .error e
    else .error (.valueError "Length mismatch")

/-- The ten RGB byte triples of the `tab10` palette returned by
`sns.color_palette("tab10")`. -/
def tab10 : List (ℕ × ℕ × ℕ) :=
  [(31, 119, 180), (255, 127, 14), (44, 160, 44), (214, 39, 40),
   (148, 103, 189), (140, 86, 75), (227, 119, 194), (127, 127, 127),
   (188, 189, 34), (23, 190, 207)]

/-- One line artist on a Matplotlib axis: its label and its y-data. -/
structure AxLine where
  label : String
  ydata : List ℚ
deriving DecidableEq, Repr

/-- The runtime shape of the `order` argument of `custom_legend`: a string,
a list of label strings, or some non-iterable value (e.g. an int). -/
inductive OrderArg where
  | str (s : String)
  | strList (l : List String)
  | nonIterable
deriving DecidableEq, Repr

/-- Iterating a Python value: a string yields its characters as one-element
strings, a list yields its elements, a non-iterable yields nothing (but see
`isIterableOrder`: that case never reaches the iteration). -/
def orderItems : OrderArg → List String
  | .str s => s.toList.map (fun c => String.mk [c])
  | .strList l => l
  | .nonIterable => []

/-- `isinstance(order, Iterable)`: strings and lists are iterable. -/
def isIterableOrder : OrderArg → Bool
  | .nonIterable => false
  | _ => true

/-- Lookup in the dict `{value: idx for idx, value in enumerate(labels)}`:
a later duplicate key overrides an earlier one, so this returns the index
of the last occurrence. -/
def dictLastIndexAux (v : String) : ℕ → List String → Option ℕ
  | _, [] => none
  | i, a :: rest =>
    match dictLastIndexAux v (i + 1) rest with
    | some j => some j
    | none => if a = v then some i else none

/-- `value_to_index[v]` for the dict built from `enumerate(labels)`. -/
def value_to_index (labels : List String) (v : String) : Option ℕ :=
  dictLastIndexAux v 0 labels

/-- NumPy fancy indexing `np.array(l)[idx]`; an out-of-range index raises
`IndexError`. -/
def fancyIndex {α : Type} (l : List α) (idx : List ℕ) : Except PyErr (List α) :=
  idx.mapM (fun i => match l[i]? with
    | some a => .ok a
    | none => .error .indexError)

/-- The list comprehension `[value_to_index[value] for value in order]`:
it raises `KeyError` at the first requested label that is absent. -/
def lookupAll (labels : List String) (items : List String) : Except PyErr (List ℕ) :=
  items.mapM (fun v => match value_to_index labels v with
    | some i => .ok i
    | none => .error (.keyError v))

/-- `np.flip(np.argsort(vals))`: positions of `vals` ordered by descending
value (ties resolved by the stable ascending sort being reversed). -/
def argsortDesc (vals : List ℚ) : List ℕ :=
  (List.insertionSort (fun i j => vals.getD i 0 ≤ vals.getD j 0)
    (List.range vals.length)).reverse

/-- The `order` dispatch of `custom_legend`: keep, reverse, sort by final
y-value, reorder by an iterable of labels, or fail with `Invalid Order`. -/
def reorderHandlesLabels (ax_lines : List AxLine) (handles : List ℕ)
    (labels : List String) (order : OrderArg) :
    Except PyErr (List ℕ × List String) :=
  if order = .str "default" then .ok (handles, labels)
  else if order = .str "reverse" then .ok (handles.reverse, labels.reverse)
  else if order = .str "desc" then
    let vals := (ax_lines.filter
      (fun L => decide (L.ydata ≠ []) && decide (L.label ∈ labels))).map
        (fun L => L.ydata.getLastD 0)
    let ordering := argsortDesc vals
    match fancyIndex handles ordering with
    | .error e => .error e
    | .ok hs =>
      match fancyIndex labels ordering with
      | .error e => .error e
      | .ok ls => .ok (hs, ls)
  else if isIterableOrder order then
    match lookupAll labels (orderItems order) with
    | .error e => .error e
    | .ok indices =>
      match fancyIndex handles indices with
      | .error e => .error e
      | .ok hs => .ok (hs, orderItems order)
  else .error (.exception "Invalid Order")

/-- The final legend configuration produced by `custom_legend`. -/
structure LegendSpec where
  handles : List ℕ
  labels : List String
  loc : String
  bbox : Option (ℚ × ℚ)
  title : String
  linewidth : ℕ
deriving DecidableEq, Repr

/-- The tail of `custom_legend`: assert the `outside_loc` enum value and
place the legend accordingly. -/
def applyOutsideLoc (handles : List ℕ) (labels : List String)
    (outside_loc : Option String) (title : String) (linewidth : ℕ) :
    Except PyErr LegendSpec :=
  if outside_loc = some "lower" ∨ outside_loc = some "center" ∨
      outside_loc = some "upper" ∨ outside_loc = none then
    let lb : String × Option (ℚ × ℚ) :=
      if outside_loc = some "lower" then ("lower left", some (1, 0))
      else if outside_loc = some "center" then ("center left", some (1, 1/2))
      else if outside_loc = some "upper" then ("upper left", some (1, 1))
      else ("best", none)
    .ok { handles := handles, labels := labels, loc := lb.1, bbox := lb.2,
          title := title, linewidth := linewidth }
  else .error (.assertionError
    "legend_to_right loc must be None or in lower, center, or upper")

/-- `ax.get_legend_handles_labels()`: the lines whose label does not start
with an underscore, as (handle ids, labels). -/
def getLegendHandlesLabels (lines : List AxLine) : List ℕ × List String :=
  let keep := lines.enum.filter (fun p => !(p.2.label.startsWith "_"))
  (keep.map Prod.fst, keep.map (fun p => p.2.label))

/-- Reading a Python local variable: unbound means `NameError`. -/
def readVarM (m : Option ℕ) : Except PyErr ℕ :=
  match m with
  | some v => .ok v
  | none => .error (.nameError "m")

/-- The per-cell legend flag computation of `grid_plot`; it reads the loop
variable `m`, which in the single-row branch is never assigned. -/
def gridLegendFlag (legend_loc : String) (mVar : Option ℕ)
    (n rows cols : ℕ) : Except PyErr Bool :=
  if legend_loc = "lower" then
    match readVarM mVar with
    | .error e => .error e
    | .ok m => .ok (decide (m + 1 = rows) && decide (n + 1 = cols))
  else if legend_loc = "upper" then
    match readVarM mVar with
    | .error e => .error e
    | .ok m => .ok (decide (m + 1 = 1) && decide (n + 1 = cols))
  else .ok false

/-- One dispatched `seaborn_func(data=subset, ax=..., legend=...)` call of
`grid_plot`, with the group used for the panel title. -/
structure PlotCall where
  group : ℤ
  subset : List ℤ
  legend : Bool
deriving DecidableEq, Repr

/-- Body of the `rows > 1` nested loop of `grid_plot` at panel `(m, n)`:
the group is the scalar `facet[m, n]` of the row-major reshaped array. -/
def gridBodyMN (col facet : List ℤ) (rows cols m n : ℕ)
    (legend_loc : String) : Except PyErr PlotCall :=
  let group := facet.getD (m * cols + n) 0
  let subset := col.filter (fun a => decide (a = group))
  match gridLegendFlag legend_loc (some m) n rows cols with
  | .error e => .error e
  | .ok legend => .ok { group := group, subset := subset, legend := legend }

/-- Body of the single-row (`else`) loop of `grid_plot` at index `n`.
`facet` has been reshaped to `(rows, cols)` with `rows ≤ 1`, so `facet[n]`
is the whole n-th *row* (an array of length `cols`) when `n < rows`, and an
`IndexError` otherwise.  Comparing the group column elementwise with that
row array raises the pandas length-mismatch `ValueError` unless the column has
exactly `cols` entries.  The loop variable `m` is unbound in this branch,
so the first read of `m` (in the legend flag, or at `axes[m, n]`) raises
`NameError`; the final `.ok` is therefore unreachable. -/
def row1Body (col facet : List ℤ) (rows cols n : ℕ)
    (legend_loc : String) : Except PyErr PlotCall :=
  if n < rows then
    if col.length = cols then
      let subset := ((col.zip facet).filter
        (fun p => decide (p.1 = p.2))).map Prod.fst
      match gridLegendFlag legend_loc none n rows cols with
      | .error e => .error e
      | .ok legend =>
        match readVarM none with
        | .error e => .error e
        | .ok _ => .ok { group := facet.getD n 0, subset := subset, legend := legend }
    else .error (.valueError "Lengths must match to compare")
  else .error .indexError

/-- The comma character, used by the thousands formatter. -/
def commaChar : Char := Char.ofNat 44

/-- Insert a comma before every third digit, working over the reversed
digit list; index `i` counts digits already emitted. -/
def commaRev : ℕ → List Char → List Char
  | _, [] => []
  | i, c :: rest =>
    if i % 3 = 0 ∧ i ≠ 0 then commaChar :: c :: commaRev (i + 1) rest
    else c :: commaRev (i + 1) rest

/-- Python comma-grouped formatting of a natural number. -/
def natComma (m : ℕ) : String :=
  String.mk (commaRev 0 (toString m).toList.reverse).reverse

/-- Python `int(x)` on a float: truncation toward zero. -/
def truncQ (q : ℚ) : ℤ :=
  if 0 ≤ q then ⌊q⌋ else -⌊-q⌋

/-- Python comma-grouped formatting of an integer: sign, then grouped digits. -/
def formatComma (n : ℤ) : String :=
  if n < 0 then "-" ++ natComma n.natAbs else natComma n.natAbs

namespace DataViz

/-- `data_viz.time_overlay_plot`.  The observable output is the list of
plotted sub-series (one per loop iteration); the `labs` index only matters
through its length, against which every window is re-indexed.  The
`date_formatter` string argument only affects label rendering on the axis
and is not part of the returned data. -/
def time_overlay_plot (month_time_series : MonthSeries) (step_size : ℕ)
    (highlight_year : Option ℤ) (bg_alpha : ℚ) :
    Except PyErr (List OverlayWindow) :=
  let target_years := sliceStep (pyUnique month_time_series.yearIndex) step_size
  if target_years.length > step_size then
    let labsLen := (monthsInYears month_time_series
      (target_years.getD (target_years.length - step_size) 0)
      (target_years.getD (target_years.length - 1) 0)).length
    overlayLoop month_time_series target_years step_size highlight_year
      bg_alpha labsLen
      (List.range (target_years.length - (step_size - 1)))
  else .error (.assertionError "Step size larger than index length")

/-- `data_viz.custom_legend`: reorder the legend entries, then assert and
apply the outside location. -/
def custom_legend (ax_lines : List AxLine) (outside_loc : Option String)
    (order : OrderArg) (title : String) (linewidth : ℕ) :
    Except PyErr LegendSpec :=
  let hl := getLegendHandlesLabels ax_lines
  match reorderHandlesLabels ax_lines hl.1 hl.2 order with
  | .error e => .error e
  | .ok p => applyOutsideLoc p.1 p.2 outside_loc title linewidth

/-- `data_viz.build_colormap`: assert fewer than 10 unique values, then zip
them with the first `tab10` colors (insertion-ordered dict as an
association list). -/
def build_colormap (series : List ℤ) : Except PyErr (List (ℤ × (ℕ × ℕ × ℕ))) :=
  let unique_set := pyUnique series
  if unique_set.length < 10 then
    .ok (unique_set.zip (tab10.take unique_set.length))
  else .error (.assertionError "len(unique_set) < 10")

/-- `data_viz.grid_plot` over the group column of the input frame. -/
def grid_plot (col : List ℤ) (rows cols : ℕ) (legend_loc : String) :
    Except PyErr (List PlotCall) :=
  let facet := pyUnique col
  if facet.length = rows * cols then
    if 1 < rows then
      ((List.range rows).flatMap
        (fun m => (List.range cols).map (fun n => (m, n)))).mapM
        (fun p => gridBodyMN col facet rows cols p.1 p.2 legend_loc)
    else
      (List.range cols).mapM (fun n => row1Body col facet rows cols n legend_loc)
  else .error (.valueError "cannot reshape")

end DataViz

namespace Plots

/-- `plots.grid_plot` (verbatim duplicate of `data_viz.grid_plot`). -/
def grid_plot (col : List ℤ) (rows cols : ℕ) (legend_loc : String) :
    Except PyErr (List PlotCall) :=
  let facet := pyUnique col
  if facet.length = rows * cols then
    if 1 < rows then
      ((List.range rows).flatMap
        (fun m => (List.range cols).map (fun n => (m, n)))).mapM
        (fun p => gridBodyMN col facet rows cols p.1 p.2 legend_loc)
    else
      (List.range cols).mapM (fun n => row1Body col facet rows cols n legend_loc)
  else .error (.valueError "cannot reshape")

/-- `plots.time_overlay_plot` (verbatim duplicate of
`data_viz.time_overlay_plot`). -/
def time_overlay_plot (month_time_series : MonthSeries) (step_size : ℕ)
    (highlight_year : Option ℤ) (bg_alpha : ℚ) :
    Except PyErr (List OverlayWindow) :=
  let target_years := sliceStep (pyUnique month_time_series.yearIndex) step_size
  if target_years.length > step_size then
    let labsLen := (monthsInYears month_time_series
      (target_years.getD (target_years.length - step_size) 0)
      (target_years.getD (target_years.length - 1) 0)).length
    overlayLoop month_time_series target_years step_size highlight_year
      bg_alpha labsLen
      (List.range (target_years.length - (step_size - 1)))
  else .error (.assertionError "Step size larger than index length")

end Plots

namespace Utilities

/-- `utilities.custom_legend` (verbatim duplicate of
`data_viz.custom_legend`). -/
def custom_legend (ax_lines : List AxLine) (outside_loc : Option String)
    (order : OrderArg) (title : String) (linewidth : ℕ) :
    Except PyErr LegendSpec :=
  let hl := getLegendHandlesLabels ax_lines
  match reorderHandlesLabels ax_lines hl.1 hl.2 order with
  | .error e => .error e
  | .ok p => applyOutsideLoc p.1 p.2 outside_loc title linewidth

/-- `utilities.build_colormap` (verbatim duplicate of
`data_viz.build_colormap`). -/
def build_colormap (series : List ℤ) : Except PyErr (List (ℤ × (ℕ × ℕ × ℕ))) :=
  let unique_set := pyUnique series
  if unique_set.length < 10 then
    .ok (unique_set.zip (tab10.take unique_set.length))
  else .error (.assertionError "len(unique_set) < 10")

/-- `utilities.show_all_xticks`: set one tick per label; the observable
result is the tick position list and the label list. -/
def show_all_xticks (labs : List String) : List ℕ × List String :=
  (List.range labs.length, labs)

/-- `utilities.comma_formatter`: the tick formatter closure
`lambda x, pos` returning the comma-grouped rendering of `int(x)`. -/
def comma_formatter (x : ℚ) : String :=
  formatComma (truncQ x)

end Utilities

namespace FormatPy

/-- `format.show_all_xticks` (verbatim duplicate of
`utilities.show_all_xticks`). -/
def show_all_xticks (labs : List String) : List ℕ × List String :=
  (List.range labs.length, labs)

/-- `format.comma_formatter` (verbatim duplicate of
`utilities.comma_formatter`). -/
def comma_formatter (x : ℚ) : String :=
  formatComma (truncQ x)

end FormatPy

namespace Geospatial

/-- A point geometry of the input GeoDataFrame. -/
structure Pt where
  x : ℚ
  y : ℚ
deriving DecidableEq, Repr

/-- The rectangular polygon of one histogram cell, with corners
`(x0, y0), (x1, y0), (x1, y1), (x0, y1)` as in the source. -/
structure BinRect where
  x0 : ℚ
  x1 : ℚ
  y0 : ℚ
  y1 : ℚ
deriving DecidableEq, Repr

/-- The outer edges `np.histogram2d` uses along one axis: the data min and
max, widened by one half on each side when they coincide, and `(0, 1)` for
empty data. -/
def dataRange (vs : List ℚ) : ℚ × ℚ :=
  match vs with
  | [] => (0, 1)
  | v :: rest =>
    let lo := rest.foldl min v
    let hi := rest.foldl max v
    if lo = hi then (lo - 1/2, hi + 1/2) else (lo, hi)

/-- The `k`-th bin edge over `[lo, hi]` with `bins` equal-width bins. -/
def edgeAt (lo hi : ℚ) (bins k : ℕ) : ℚ :=
  lo + k * (hi - lo) / bins

/-- The bin a value falls into: half-open bins, except that the last bin
also contains the right edge (`np.histogram2d` semantics). -/
def binIndex (lo hi : ℚ) (bins : ℕ) (v : ℚ) : ℕ :=
  if v = hi then bins - 1 else (⌊(v - lo) * bins / (hi - lo)⌋).toNat

/-- Cell `(i, j)` of `np.histogram2d(x, y, bins=bins)`: the number of
points in x-bin `i` and y-bin `j`. -/
def hist2d (pts : List Pt) (bins : ℕ) (i j : ℕ) : ℕ :=
  let xr := dataRange (pts.map Pt.x)
  let yr := dataRange (pts.map Pt.y)
  (pts.filter (fun p =>
    decide (binIndex xr.1 xr.2 bins p.x = i) &&
    decide (binIndex yr.1 yr.2 bins p.y = j))).length

/-- `geospatial.build_choropleth`: the 2D histogram with cells equal to
`mask` overwritten by `NaN` (`none`), then one polygon per grid cell —
every cell, masked or not — paired with its (possibly `NaN`) value. -/
def build_choropleth (pts : List Pt) (bins : ℕ) (mask : ℕ) :
    List (BinRect × Option ℕ) :=
  let xr := dataRange (pts.map Pt.x)
  let yr := dataRange (pts.map Pt.y)
  (List.range bins).flatMap (fun i => (List.range bins).map (fun j =>
    ({ x0 := edgeAt xr.1 xr.2 bins i, x1 := edgeAt xr.1 xr.2 bins (i + 1),
       y0 := edgeAt yr.1 yr.2 bins j, y1 := edgeAt yr.1 yr.2 bins (j + 1) },
     if hist2d pts bins i j = mask then none else some (hist2d pts bins i j))))

/-- Membership of a point in the open interior of a cell polygon. -/
def cellInterior (r : BinRect) (px py : ℚ) : Prop :=
  r.x0 < px ∧ px < r.x1 ∧ r.y0 < py ∧ py < r.y1

/-- Two rectangles overlap nowhere in their interiors. -/
def disjointRects (r r' : BinRect) : Prop :=
  ∀ px py : ℚ, cellInterior r px py → cellInterior r' px py → False

end Geospatial

/-- The 36-month example series of the spec: 2020-01 through 2022-12. -/
def exSeries36 : MonthSeries :=
  { startYear := 2020, startMonth := 1, values := List.replicate 36 0 }

/-- A 60-month series, 2020-01 through 2024-12 (five distinct years). -/
def exSeries60 : MonthSeries :=
  { startYear := 2020, startMonth := 1, values := List.replicate 60 0 }

/-- A 24-month series, 2020-01 through 2021-12 (two distinct years). -/
def exSeries24 : MonthSeries :=
  { startYear := 2020, startMonth := 1, values := List.replicate 24 0 }

/-- A 12-month series covering only the year 2020. -/
def exSeries12 : MonthSeries :=
  { startYear := 2020, startMonth := 1, values := List.replicate 12 0 }

/-- The two windows produced for `exSeries24` with no highlight year. -/
def exWindows24Plain : List OverlayWindow :=
  [{ startYear := 2020, endYear := 2020, alpha := 0, label := "$2020$",
     values := List.replicate 12 0 },
   { startYear := 2021, endYear := 2021, alpha := 0, label := "$2021$",
     values := List.replicate 12 0 }]

/-- The two windows produced for `exSeries24` when 2021 is highlighted. -/
def exWindows24Highlight : List OverlayWindow :=
  [{ startYear := 2020, endYear := 2020, alpha := 0, label := "$2020$",
     values := List.replicate 12 0 },
   { startYear := 2021, endYear := 2021, alpha := 1, label := "$2021$",
     values := List.replicate 12 0 }]

/-! ## Library lemmas about the embedded pandas / numpy operations -/

theorem pyUniqueAux_sublist {α : Type} [DecidableEq α] :
    ∀ (fuel : ℕ) (l : List α), (pyUniqueAux fuel l).Sublist l := by
  intro fuel
  induction fuel with
  | zero =>
    intro l
    cases l with
    | nil => simp [pyUniqueAux]
    | cons a rest => simp [pyUniqueAux]
  | succ fuel ih =>
    intro l
    cases l with
    | nil => simp [pyUniqueAux]
    | cons a rest =>
      simp only [pyUniqueAux]
      exact (ih _).trans (List.filter_sublist rest) |>.cons₂ a

theorem pyUnique_sublist {α : Type} [DecidableEq α] (l : List α) :
    (pyUnique l).Sublist l :=
  pyUniqueAux_sublist l.length l

theorem pyUniqueAux_nodup {α : Type} [DecidableEq α] :
    ∀ (fuel : ℕ) (l : List α), (pyUniqueAux fuel l).Nodup := by
  intro fuel
  induction fuel with
  | zero =>
    intro l
    cases l with
    | nil => simp [pyUniqueAux]
    | cons a rest => simp [pyUniqueAux]
  | succ fuel ih =>
    intro l
    cases l with
    | nil => simp [pyUniqueAux]
    | cons a rest =>
      simp only [pyUniqueAux, List.nodup_cons]
      refine ⟨fun hmem => ?_, ih _⟩
      have hmem' : a ∈ rest.filter (fun b => b ≠ a) :=
        (pyUniqueAux_sublist fuel _).mem hmem
      have := (List.mem_filter.mp hmem').2
      simp at this

theorem pyUnique_nodup {α : Type} [DecidableEq α] (l : List α) :
    (pyUnique l).Nodup :=
  pyUniqueAux_nodup l.length l

theorem sliceStepAux_sublist {α : Type} (s : ℕ) :
    ∀ (l : List α) (k : ℕ), (sliceStepAux s k l).Sublist l := by
  intro l
  induction l with
  | nil => intro k; simp [sliceStepAux]
  | cons a rest ih =>
    intro k
    cases k with
    | zero => exact (ih (s - 1)).cons₂ a
    | succ k => exact (ih k).cons a

theorem sliceStep_sublist {α : Type} (l : List α) (s : ℕ) :
    (sliceStep l s).Sublist l :=
  sliceStepAux_sublist s l 0

theorem sliceStepAux_length {α : Type} (s : ℕ) (hs : 1 ≤ s) :
    ∀ (l : List α) (k : ℕ), k ≤ s - 1 →
      (sliceStepAux s k l).length = (l.length + (s - 1 - k)) / s := by
  intro l
  induction l with
  | nil =>
    intro k hk
    simp only [sliceStepAux, List.length_nil]
    rw [Nat.div_eq_of_lt (by omega)]
  | cons a rest ih =>
    intro k hk
    cases k with
    | zero =>
      have h1 : (sliceStepAux s (s - 1) rest).length =
          (rest.length + (s - 1 - (s - 1))) / s := ih (s - 1) le_rfl
      simp only [sliceStepAux, List.length_cons, h1]
      have h2 : rest.length + (s - 1 - (s - 1)) = rest.length := by omega
      have h3 : rest.length + 1 + (s - 1 - 0) = rest.length + s := by omega
      rw [h2, h3, Nat.add_div_right _ (by omega)]
    | succ k =>
      have h1 : (sliceStepAux s k rest).length =
          (rest.length + (s - 1 - k)) / s := ih k (by omega)
      simp only [sliceStepAux, List.length_cons, h1]
      have h2 : rest.length + 1 + (s - 1 - (k + 1)) = rest.length + (s - 1 - k) := by
        omega
      rw [h2]

theorem sliceStep_length {α : Type} (l : List α) (s : ℕ) (hs : 1 ≤ s) :
    (sliceStep l s).length = (l.length + (s - 1)) / s := by
  have h := sliceStepAux_length s hs l 0 (by omega)
  simpa [sliceStep] using h

theorem slice_guard_iff (D s : ℕ) (hs : 1 ≤ s) :
    s < (D + (s - 1)) / s ↔ s * s < D := by
  have h := @Nat.le_div_iff_mul_le s (s + 1) (D + (s - 1)) (by omega)
  have hss : (s + 1) * s = s * s + s := by ring
  rw [hss] at h
  constructor
  · intro hlt
    have h2 := h.mp (Nat.succ_le_of_lt hlt)
    omega
  · intro hgt
    exact Nat.lt_of_lt_of_le (Nat.lt_succ_self s) (h.mpr (by omega))

theorem getD_eq_get {α : Type} (l : List α) (d : α) (n : ℕ) (h : n < l.length) :
    l.getD n d = l.get ⟨n, h⟩ := by
  simp [List.getD_eq_getElem?_getD, List.getElem?_eq_getElem h, List.get_eq_getElem]

theorem length_filter_le_one {α : Type} (p : α → Bool) (l : List α)
    (h : l.Pairwise (fun a b => ¬(p a = true ∧ p b = true))) :
    (l.filter p).length ≤ 1 := by
  induction l with
  | nil => simp
  | cons a t ih =>
    rcases List.pairwise_cons.mp h with ⟨ha, ht⟩
    by_cases hpa : p a = true
    · rw [List.filter_cons_of_pos hpa]
      have hnil : t.filter p = [] := by
        refine List.filter_eq_nil_iff.mpr (fun b hb => ?_)
        intro hpb
        exact ha b hb ⟨hpa, hpb⟩
      simp [hnil]
    · rw [List.filter_cons_of_neg hpa]
      exact ih ht

/-! ## Structural lemmas about the overlay builder -/

theorem overlayLoop_ok (ser : MonthSeries) (T : List ℤ) (s : ℕ)
    (hy : Option ℤ) (bg : ℚ) (L : ℕ) :
    ∀ (l : List ℕ) (ws : List OverlayWindow),
      overlayLoop ser T s hy bg L l = .ok ws →
      ws = l.map (mkWindow ser T s hy bg) := by
  intro l
  induction l with
  | nil =>
    intro ws h
    simp only [overlayLoop] at h
    cases h
    rfl
  | cons i rest ih =>
    intro ws h
    simp only [overlayLoop] at h
    by_cases hlen : (mkWindow ser T s hy bg i).values.length = L
    · rw [if_pos hlen] at h
      cases hrec : overlayLoop ser T s hy bg L rest with
      | ok ws' =>
        rw [hrec] at h
        cases h
        simp [ih ws' hrec]
      | error e =>
        rw [hrec] at h
        cases h
    · rw [if_neg hlen] at h
      cases h

theorem overlayLoop_error (ser : MonthSeries) (T : List ℤ) (s : ℕ)
    (hy : Option ℤ) (bg : ℚ) (L : ℕ) :
    ∀ (l : List ℕ) (e : PyErr),
      overlayLoop ser T s hy bg L l = .error e →
      e = .valueError "Length mismatch" := by
  intro l
  induction l with
  | nil =>
    intro e h
    simp only [overlayLoop] at h
    cases h
  | cons i rest ih =>
    intro e h
    simp only [overlayLoop] at h
    by_cases hlen : (mkWindow ser T s hy bg i).values.length = L
    · rw [if_pos hlen] at h
      cases hrec : overlayLoop ser T s hy bg L rest with
      | ok ws2 => rw [hrec] at h; cases h
      | error e2 =>
        rw [hrec] at h
        cases h
        exact ih _ hrec
    · rw [if_neg hlen] at h
      cases h
      rfl

theorem time_overlay_plot_eq (ser : MonthSeries) (s : ℕ) (hy : Option ℤ) (bg : ℚ) :
    DataViz.time_overlay_plot ser s hy bg =
      (if (sliceStep (pyUnique ser.yearIndex) s).length > s then
        overlayLoop ser (sliceStep (pyUnique ser.yearIndex) s) s hy bg
          ((monthsInYears ser
            ((sliceStep (pyUnique ser.yearIndex) s).getD
              ((sliceStep (pyUnique ser.yearIndex) s).length - s) 0)
            ((sliceStep (pyUnique ser.yearIndex) s).getD
              ((sliceStep (pyUnique ser.yearIndex) s).length - 1) 0)).length)
          (List.range ((sliceStep (pyUnique ser.yearIndex) s).length - (s - 1)))
      else .error (.assertionError "Step size larger than index length")) := rfl

theorem yearAt_mono (ser : MonthSeries) {k k' : ℕ} (h : k ≤ k') :
    ser.yearAt k ≤ ser.yearAt k' := by
  unfold MonthSeries.yearAt
  have hdiv : (ser.startMonth - 1 + k) / 12 ≤ (ser.startMonth - 1 + k') / 12 :=
    Nat.div_le_div_right (by omega)
  exact add_le_add_left (Int.ofNat_le.mpr hdiv) _

theorem yearIndex_pairwise_le (ser : MonthSeries) :
    ser.yearIndex.Pairwise (· ≤ ·) := by
  unfold MonthSeries.yearIndex
  rw [List.pairwise_map]
  exact (List.pairwise_lt_range _).imp (fun h => yearAt_mono ser (le_of_lt h))

theorem targetYears_pairwise_lt (ser : MonthSeries) (s : ℕ) :
    (sliceStep (pyUnique ser.yearIndex) s).Pairwise (· < ·) := by
  have hsub : (sliceStep (pyUnique ser.yearIndex) s).Sublist (pyUnique ser.yearIndex) :=
    sliceStep_sublist _ s
  have hle : (sliceStep (pyUnique ser.yearIndex) s).Pairwise (· ≤ ·) :=
    List.Pairwise.sublist hsub
      (List.Pairwise.sublist (pyUnique_sublist _) (yearIndex_pairwise_le ser))
  have hne : (sliceStep (pyUnique ser.yearIndex) s).Nodup :=
    hsub.nodup (pyUnique_nodup _)
  exact (hle.and hne).imp (fun h => lt_of_le_of_ne h.1 h.2)

/-! ## Claims about `time_overlay_plot` -/

/-- C1 (amended): `time_overlay_plot` raises its configuration
`AssertionError` if and only if the number of distinct years in the series
is at most `step_size²` — because the guard compares `step_size` against
the length of `unique_years[::step_size]`, i.e. `⌈distinct/step_size⌉`,
not against the number of distinct years itself.  For `step_size = 1` this
coincides with the claimed criterion. -/
theorem time_overlay_plot_rejects_iff (ser : MonthSeries) (s : ℕ)
    (hy : Option ℤ) (bg : ℚ) (hs : 1 ≤ s) :
    DataViz.time_overlay_plot ser s hy bg =
        .error (.assertionError "Step size larger than index length") ↔
      (pyUnique ser.yearIndex).length ≤ s * s := by
  rw [time_overlay_plot_eq]
  have hlen : (sliceStep (pyUnique ser.yearIndex) s).length =
      ((pyUnique ser.yearIndex).length + (s - 1)) / s :=
    sliceStep_length _ s hs
  by_cases hg : (sliceStep (pyUnique ser.yearIndex) s).length > s
  · rw [if_pos hg]
    constructor
    · intro h
      exact absurd (overlayLoop_error ser _ s hy bg _ _ _ h) (by simp)
    · intro hD
      exfalso
      rw [hlen] at hg
      have := (slice_guard_iff (pyUnique ser.yearIndex).length s hs).mp hg
      omega
  · rw [if_neg hg]
    constructor
    · intro _
      by_contra hD
      exact hg (hlen ▸ (slice_guard_iff (pyUnique ser.yearIndex).length s hs).mpr
        (by omega))
    · intro _
      rfl

/-- C1 (counterexample to the claim as stated): a 36-month series covering
the three distinct years 2020–2022 with `step_size = 2` satisfies
`step_size < distinct years`, yet the code rejects it, because
`unique_years[::2]` has only 2 elements and `2 > 2` fails. -/
theorem time_overlay_plot_rejects_small_step :
    DataViz.time_overlay_plot exSeries36 2 none 0 =
      .error (.assertionError "Step size larger than index length") ∧
    2 < (pyUnique exSeries36.yearIndex).length := by
  constructor
  · rfl
  · decide

/-- Witness for `time_overlay_plot_rejects_iff` at a 12-month series. -/
theorem time_overlay_plot_rejects_iff_witness :
    DataViz.time_overlay_plot exSeries12 1 none 0 =
      .error (.assertionError "Step size larger than index length") :=
  (time_overlay_plot_rejects_iff exSeries12 1 none 0 (by decide)).mpr (by decide)

/-- C2 (amended): on a successful run the plotted windows are exactly one
per index `i < len(target_years) - (step_size - 1)` over the *subsampled*
year list `target_years = unique_years[::step_size]`, so the window count
is `⌈distinct/step_size⌉ - step_size + 1`, not
`distinct - step_size + 1`; the two agree exactly when `step_size = 1`. -/
theorem time_overlay_plot_window_count (ser : MonthSeries) (s : ℕ)
    (hy : Option ℤ) (bg : ℚ) (ws : List OverlayWindow) (hs : 1 ≤ s)
    (h : DataViz.time_overlay_plot ser s hy bg = .ok ws) :
    ws = (List.range ((sliceStep (pyUnique ser.yearIndex) s).length - (s - 1))).map
        (mkWindow ser (sliceStep (pyUnique ser.yearIndex) s) s hy bg) ∧
    ws.length = ((pyUnique ser.yearIndex).length + (s - 1)) / s - (s - 1) := by
  rw [time_overlay_plot_eq] at h
  by_cases hg : (sliceStep (pyUnique ser.yearIndex) s).length > s
  · rw [if_pos hg] at h
    have hmap := overlayLoop_ok ser _ s hy bg _ _ ws h
    refine ⟨hmap, ?_⟩
    rw [hmap]
    simp [sliceStep_length _ s hs]
  · rw [if_neg hg] at h
    cases h

/-- C2 (counterexample to the claim as stated): five distinct years
2020–2024 with `step_size = 2` is accepted but produces 2 windows, not
`5 - 2 + 1 = 4`. -/
theorem time_overlay_plot_window_count_counterexample :
    (DataViz.time_overlay_plot exSeries60 2 none 0).map List.length = .ok 2 ∧
    (pyUnique exSeries60.yearIndex).length = 5 := by
  constructor
  · rfl
  · decide

/-- Witness for `time_overlay_plot_window_count` on a 24-month series. -/
theorem time_overlay_plot_window_count_witness :
    exWindows24Plain =
      (List.range ((sliceStep (pyUnique exSeries24.yearIndex) 1).length - (1 - 1))).map
        (mkWindow exSeries24 (sliceStep (pyUnique exSeries24.yearIndex) 1) 1 none 0) ∧
    exWindows24Plain.length =
      ((pyUnique exSeries24.yearIndex).length + (1 - 1)) / 1 - (1 - 1) :=
  time_overlay_plot_window_count exSeries24 1 none 0 exWindows24Plain
    (by decide) (by decide)

/-- C5: for the 36-month series 2020-01..2022-12 with `step_size = 1` and
`highlight_year = 2021`, exactly three windows are produced, labelled
`$2020$`, `$2021$`, `$2022$` (Matplotlib math text that displays as
"2020", "2021", "2022"), and only the `$2021$` window has full opacity
(alpha 1); the others keep the default background alpha 3/10. -/
theorem time_overlay_plot_concrete_scenario :
    DataViz.time_overlay_plot exSeries36 1 (some 2021) (3/10) = .ok
      [{ startYear := 2020, endYear := 2020, alpha := 3/10, label := "$2020$",
         values := List.replicate 12 0 },
       { startYear := 2021, endYear := 2021, alpha := 1, label := "$2021$",
         values := List.replicate 12 0 },
       { startYear := 2022, endYear := 2022, alpha := 3/10, label := "$2022$",
         values := List.replicate 12 0 }] := rfl

/-- C4: on any successful run with a background alpha different from 1, at
most one window is drawn with full opacity, and the fully opaque windows
are exactly those whose terminal year equals the caller-supplied
`highlight_year`; with `highlight_year = None` no window is highlighted. -/
theorem time_overlay_plot_highlight_unique (ser : MonthSeries) (s : ℕ)
    (hy : Option ℤ) (bg : ℚ) (ws : List OverlayWindow) (hbg : bg ≠ 1)
    (hs : 1 ≤ s) (h : DataViz.time_overlay_plot ser s hy bg = .ok ws) :
    ws.countP (fun w => decide (w.alpha = 1)) ≤ 1 ∧
    ws.filter (fun w => decide (w.alpha = 1)) =
      ws.filter (fun w => decide (some w.endYear = hy)) := by
  rw [time_overlay_plot_eq] at h
  have hTp := targetYears_pairwise_lt ser s
  set T := sliceStep (pyUnique ser.yearIndex) s with hT
  by_cases hg : T.length > s
  swap
  · rw [if_neg hg] at h
    cases h
  rw [if_pos hg] at h
  have hmap := overlayLoop_ok ser T s hy bg _ _ ws h
  have hend : ∀ i : ℕ, (mkWindow ser T s hy bg i).endYear = T.getD (i + (s - 1)) 0 :=
    fun i => rfl
  have halpha : ∀ i : ℕ, ((mkWindow ser T s hy bg i).alpha = 1 ↔
      some ((mkWindow ser T s hy bg i).endYear) = hy) := by
    intro i
    have ha : (mkWindow ser T s hy bg i).alpha =
        (if some (T.getD (i + (s - 1)) 0) = hy then (1 : ℚ) else bg) := rfl
    rw [ha, hend i]
    by_cases hc : some (T.getD (i + (s - 1)) 0) = hy
    · rw [if_pos hc]
      exact iff_of_true rfl hc
    · rw [if_neg hc]
      exact iff_of_false hbg hc
  have hcong : ∀ w ∈ ws,
      (decide (w.alpha = 1)) = (decide (some w.endYear = hy)) := by
    intro w hw
    rw [hmap] at hw
    obtain ⟨i, hi, rfl⟩ := List.mem_map.mp hw
    exact decide_eq_decide.mpr (halpha i)
  have hpair : ws.Pairwise (fun a b =>
      ¬((fun w => decide (w.alpha = 1)) a = true ∧
        (fun w => decide (w.alpha = 1)) b = true)) := by
    rw [hmap, List.pairwise_map]
    refine (List.pairwise_lt_range (T.length - (s - 1))).imp_of_mem ?_
    intro i j hi hj hij hcon
    obtain ⟨h1, h2⟩ := hcon
    rw [decide_eq_true_eq] at h1 h2
    have e1 : some (T.getD (i + (s - 1)) 0) = hy := by
      rw [← hend i]
      exact (halpha i).mp h1
    have e2 : some (T.getD (j + (s - 1)) 0) = hy := by
      rw [← hend j]
      exact (halpha j).mp h2
    have heq : T.getD (i + (s - 1)) 0 = T.getD (j + (s - 1)) 0 :=
      Option.some.inj (e1.trans e2.symm)
    have hiB : i + (s - 1) < T.length := by
      have := List.mem_range.mp hi
      omega
    have hjB : j + (s - 1) < T.length := by
      have := List.mem_range.mp hj
      omega
    have hlt : T.get ⟨i + (s - 1), hiB⟩ < T.get ⟨j + (s - 1), hjB⟩ :=
      List.pairwise_iff_get.mp hTp ⟨i + (s - 1), hiB⟩ ⟨j + (s - 1), hjB⟩
        (by simp [Fin.lt_def]; omega)
    rw [getD_eq_get T 0 _ hiB, getD_eq_get T 0 _ hjB] at heq
    exact absurd heq (ne_of_lt hlt)
  constructor
  · rw [List.countP_eq_length_filter]
    exact length_filter_le_one _ ws hpair
  · exact List.filter_congr hcong

/-- Witness for `time_overlay_plot_highlight_unique`: the 24-month series
with 2021 highlighted. -/
theorem time_overlay_plot_highlight_unique_witness :
    exWindows24Highlight.countP (fun w => decide (w.alpha = 1)) ≤ 1 ∧
    exWindows24Highlight.filter (fun w => decide (w.alpha = 1)) =
      exWindows24Highlight.filter (fun w => decide (some w.endYear = some 2021)) :=
  time_overlay_plot_highlight_unique exSeries24 1 (some 2021) 0
    exWindows24Highlight (by decide) (by decide) (by decide)

/-! ## Claims about `build_colormap` -/

theorem build_colormap_eq (series : List ℤ) :
    DataViz.build_colormap series =
      (if (pyUnique series).length < 10 then
        .ok ((pyUnique series).zip (tab10.take (pyUnique series).length))
      else .error (.assertionError "len(unique_set) < 10")) := rfl

/-- C7: `build_colormap` rejects (with its assertion, before building any
mapping) exactly when the series has 10 or more unique values; otherwise it
returns the insertion-ordered dict whose keys are exactly the unique values
of the series, each mapped to a distinct `tab10` color. -/
theorem build_colormap_spec (series : List ℤ) :
    (10 ≤ (pyUnique series).length →
      DataViz.build_colormap series =
        .error (.assertionError "len(unique_set) < 10")) ∧
    ((pyUnique series).length < 10 →
      DataViz.build_colormap series =
          .ok ((pyUnique series).zip (tab10.take (pyUnique series).length)) ∧
        ((pyUnique series).zip (tab10.take (pyUnique series).length)).map
            Prod.fst = pyUnique series ∧
        (((pyUnique series).zip (tab10.take (pyUnique series).length)).map
            Prod.snd).Nodup) := by
  have htab : tab10.length = 10 := rfl
  constructor
  · intro h10
    rw [build_colormap_eq, if_neg (by omega)]
  · intro hlt
    refine ⟨by rw [build_colormap_eq, if_pos hlt], ?_, ?_⟩
    · apply List.map_fst_zip
      rw [List.length_take, htab]
      omega
    · have hlen : (tab10.take (pyUnique series).length).length ≤
          (pyUnique series).length := by
        rw [List.length_take, htab]
        omega
      rw [List.map_snd_zip _ _ hlen]
      exact (List.take_sublist _ _).nodup (by decide)

/-- Witness for `build_colormap_spec`: ten distinct values reject, three
values (two distinct) succeed. -/
theorem build_colormap_spec_witness :
    DataViz.build_colormap [0, 1, 2, 3, 4, 5, 6, 7, 8, 9] =
        .error (.assertionError "len(unique_set) < 10") ∧
    DataViz.build_colormap [5, 5, 7] =
        .ok ((pyUnique [(5:ℤ), 5, 7]).zip
          (tab10.take (pyUnique [(5:ℤ), 5, 7]).length)) :=
  ⟨(build_colormap_spec [0, 1, 2, 3, 4, 5, 6, 7, 8, 9]).1 (by decide),
   ((build_colormap_spec [5, 5, 7]).2 (by decide)).1⟩

/-! ## Claims about `grid_plot` -/

theorem grid_plot_eq (col : List ℤ) (rows cols : ℕ) (loc : String) :
    DataViz.grid_plot col rows cols loc =
      (if (pyUnique col).length = rows * cols then
        if 1 < rows then
          ((List.range rows).flatMap
            (fun m => (List.range cols).map (fun n => (m, n)))).mapM
            (fun p => gridBodyMN col (pyUnique col) rows cols p.1 p.2 loc)
        else
          (List.range cols).mapM
            (fun n => row1Body col (pyUnique col) rows cols n loc)
      else .error (.valueError "cannot reshape")) := rfl

theorem row1Body_zero_matched (col facet : List ℤ) (cols : ℕ) (loc : String)
    (hcols : col.length = cols) :
    row1Body col facet 1 cols 0 loc = .error (.nameError "m") := by
  unfold row1Body
  rw [if_pos (by omega : (0 : ℕ) < 1), if_pos hcols]
  unfold gridLegendFlag
  by_cases h1 : loc = "lower"
  · rw [if_pos h1]
    rfl
  · rw [if_neg h1]
    by_cases h2 : loc = "upper"
    · rw [if_pos h2]
      rfl
    · rw [if_neg h2]
      rfl

theorem row1Body_zero_mismatched (col facet : List ℤ) (cols : ℕ) (loc : String)
    (hcols : col.length ≠ cols) :
    row1Body col facet 1 cols 0 loc =
      .error (.valueError "Lengths must match to compare") := by
  unfold row1Body
  rw [if_pos (by omega : (0 : ℕ) < 1), if_neg hcols]

/-- C9 (amended): when `rows = 1` and there is at least one group (so the
reshape succeeds with `cols ≥ 1` and the loop body runs), `grid_plot`
always raises before returning — but the exception is a `NameError` on the
unassigned loop variable `m` only when the group column has exactly `cols`
entries; otherwise the elementwise comparison of the column against the
row-array `facet[n]` (an array of length `cols`, since `facet[n]` indexes a
`(1, cols)`-shaped array by row) raises the pandas length-mismatch
`ValueError` first, before `m` is ever read. -/
theorem grid_plot_single_row_raises (col : List ℤ) (cols : ℕ) (loc : String)
    (hre : (pyUnique col).length = 1 * cols) (hc : 1 ≤ cols) :
    (col.length = cols →
      DataViz.grid_plot col 1 cols loc = .error (.nameError "m")) ∧
    (col.length ≠ cols →
      DataViz.grid_plot col 1 cols loc =
        .error (.valueError "Lengths must match to compare")) := by
  obtain ⟨k, rfl⟩ : ∃ k, cols = k + 1 := ⟨cols - 1, by omega⟩
  constructor
  · intro hlen
    rw [grid_plot_eq, if_pos hre, if_neg (by omega), List.range_succ_eq_map,
      List.mapM_cons, row1Body_zero_matched col (pyUnique col) (k + 1) loc hlen]
    rfl
  · intro hlen
    rw [grid_plot_eq, if_pos hre, if_neg (by omega), List.range_succ_eq_map,
      List.mapM_cons, row1Body_zero_mismatched col (pyUnique col) (k + 1) loc hlen]
    rfl

/-- C9 (counterexample to the claim as stated): three rows in two groups
with `rows = 1`, `cols = 2` raise the pandas length-mismatch `ValueError`
(comparing the 3-entry column with the length-2 row array `facet[0]`), not
a `NameError`. -/
theorem grid_plot_single_row_counterexample :
    DataViz.grid_plot [0, 0, 1] 1 2 "lower" =
        .error (.valueError "Lengths must match to compare") ∧
    DataViz.grid_plot [0, 0, 1] 1 2 "lower" ≠ .error (.nameError "m") := by
  constructor
  · rfl
  · decide

/-- Witness for `grid_plot_single_row_raises`: two singleton groups, where
the lengths match and the unassigned `m` is reached. -/
theorem grid_plot_single_row_raises_witness :
    DataViz.grid_plot [5, 7] 1 2 "lower" = .error (.nameError "m") :=
  (grid_plot_single_row_raises [5, 7] 2 "lower" (by decide) (by decide)).1
    (by decide)

/-! ## Claims about `custom_legend` -/

theorem mapM_except_error {α β : Type} (f : α → Except PyErr β)
    (P : PyErr → Prop) (hf : ∀ a e, f a = .error e → P e) :
    ∀ (l : List α) (e : PyErr), l.mapM f = .error e → P e := by
  intro l
  induction l with
  | nil =>
    intro e h
    rw [List.mapM_nil] at h
    cases h
  | cons a rest ih =>
    intro e h
    rw [List.mapM_cons] at h
    cases hfa : f a with
    | error e1 =>
      rw [hfa] at h
      have h2 : (Except.error e1 : Except PyErr (List β)) = .error e := h
      cases h2
      exact hf a _ hfa
    | ok b =>
      rw [hfa] at h
      cases hrest : rest.mapM f with
      | error e2 =>
        rw [hrest] at h
        have h3 : (Except.error e2 : Except PyErr (List β)) = .error e := h
        cases h3
        exact ih _ hrest
      | ok bs =>
        rw [hrest] at h
        have h4 : (Except.ok (b :: bs) : Except PyErr (List β)) = .error e := h
        cases h4

theorem fancyIndex_error {α : Type} (l : List α) (idx : List ℕ) (e : PyErr)
    (h : fancyIndex l idx = .error e) : e = .indexError := by
  refine mapM_except_error _ (fun e => e = .indexError) ?_ idx e h
  intro i e1 h1
  cases hli : l[i]? with
  | some a => rw [hli] at h1; cases h1
  | none =>
    rw [hli] at h1
    cases h1
    rfl

theorem lookupAll_error (labels : List String) (items : List String) (e : PyErr)
    (h : lookupAll labels items = .error e) : ∃ v, e = .keyError v := by
  refine mapM_except_error _ (fun e => ∃ v, e = .keyError v) ?_ items e h
  intro v e1 h1
  cases hv : value_to_index labels v with
  | some i => rw [hv] at h1; cases h1
  | none =>
    rw [hv] at h1
    cases h1
    exact ⟨v, rfl⟩

theorem dictLastIndexAux_none (v : String) :
    ∀ (l : List String) (i : ℕ), dictLastIndexAux v i l = none ↔ v ∉ l := by
  intro l
  induction l with
  | nil =>
    intro i
    simp [dictLastIndexAux]
  | cons a rest ih =>
    intro i
    simp only [dictLastIndexAux]
    cases h : dictLastIndexAux v (i + 1) rest with
    | some j =>
      constructor
      · intro habs
        cases habs
      · intro hnotin
        exfalso
        have hvrest : v ∈ rest := by
          by_contra hvr
          rw [← ih (i + 1)] at hvr
          rw [h] at hvr
          cases hvr
        exact hnotin (List.mem_cons_of_mem a hvrest)
    | none =>
      by_cases hav : a = v
      · rw [if_pos hav]
        constructor
        · intro habs
          cases habs
        · intro hnotin
          exact absurd (hav ▸ List.mem_cons_self a rest) hnotin
      · rw [if_neg hav]
        constructor
        · intro _
          intro hmem
          rcases List.mem_cons.mp hmem with hva | hvrest
          · exact hav hva.symm
          · exact ((ih (i + 1)).mp h) hvrest
        · intro _
          rfl

theorem value_to_index_none_iff (labels : List String) (v : String) :
    value_to_index labels v = none ↔ v ∉ labels :=
  dictLastIndexAux_none v labels 0

theorem lookupAll_first_missing (labels : List String) :
    ∀ (items : List String), (∃ v ∈ items, value_to_index labels v = none) →
      ∃ v ∈ items, value_to_index labels v = none ∧
        lookupAll labels items = .error (.keyError v) := by
  intro items
  induction items with
  | nil =>
    rintro ⟨v, hv, _⟩
    cases hv
  | cons a rest ih =>
    rintro ⟨v, hv, hnone⟩
    by_cases ha : value_to_index labels a = none
    · refine ⟨a, List.mem_cons_self a rest, ha, ?_⟩
      unfold lookupAll
      rw [List.mapM_cons]
      have hfa : (match value_to_index labels a with
          | some i => (Except.ok i : Except PyErr ℕ)
          | none => .error (.keyError a)) = .error (.keyError a) := by
        rw [ha]
      rw [hfa]
      rfl
    · obtain ⟨i, hi⟩ := Option.ne_none_iff_exists'.mp ha
      have hvrest : v ∈ rest := by
        rcases List.mem_cons.mp hv with hva | hvr
        · exact absurd (hva ▸ hnone) ha
        · exact hvr
      obtain ⟨w, hw, hwnone, herr⟩ := ih ⟨v, hvrest, hnone⟩
      refine ⟨w, List.mem_cons_of_mem a hw, hwnone, ?_⟩
      unfold lookupAll at herr ⊢
      rw [List.mapM_cons]
      have hfa : (match value_to_index labels a with
          | some i => (Except.ok i : Except PyErr ℕ)
          | none => .error (.keyError a)) = .ok i := by
        rw [hi]
      rw [hfa, herr]
      rfl

theorem custom_legend_eq (ax_lines : List AxLine) (oloc : Option String)
    (order : OrderArg) (t : String) (lw : ℕ) :
    DataViz.custom_legend ax_lines oloc order t lw =
      (match reorderHandlesLabels ax_lines (getLegendHandlesLabels ax_lines).1
          (getLegendHandlesLabels ax_lines).2 order with
       | .error e => .error e
       | .ok p => applyOutsideLoc p.1 p.2 oloc t lw) := rfl

theorem reorder_str_other (ax_lines : List AxLine) (handles : List ℕ)
    (labels : List String) (s : String) (h1 : s ≠ "default")
    (h2 : s ≠ "reverse") (h3 : s ≠ "desc") :
    reorderHandlesLabels ax_lines handles labels (.str s) =
      (match lookupAll labels (orderItems (.str s)) with
       | .error e => .error e
       | .ok indices =>
         match fancyIndex handles indices with
         | .error e => .error e
         | .ok hs => .ok (hs, orderItems (.str s))) := by
  unfold reorderHandlesLabels
  rw [if_neg (by simp [h1]), if_neg (by simp [h2]), if_neg (by simp [h3]),
    if_pos (by rfl)]

theorem applyOutsideLoc_no_exception (handles : List ℕ) (labels : List String)
    (oloc : Option String) (t : String) (lw : ℕ) (msg : String) :
    applyOutsideLoc handles labels oloc t lw ≠ .error (.exception msg) := by
  unfold applyOutsideLoc
  by_cases hc : (oloc = some "lower" ∨ oloc = some "center" ∨
      oloc = some "upper" ∨ oloc = none)
  · rw [if_pos hc]
    intro hcon
    cases hcon
  · rw [if_neg hc]
    intro hcon
    simp at hcon

theorem reorder_str_other_no_exception (ax_lines : List AxLine)
    (handles : List ℕ) (labels : List String) (s : String)
    (h1 : s ≠ "default") (h2 : s ≠ "reverse") (h3 : s ≠ "desc") (msg : String) :
    reorderHandlesLabels ax_lines handles labels (.str s) ≠
      .error (.exception msg) := by
  intro hcon
  rw [reorder_str_other ax_lines handles labels s h1 h2 h3] at hcon
  cases hl : lookupAll labels (orderItems (.str s)) with
  | error e =>
    rw [hl] at hcon
    obtain ⟨v, rfl⟩ := lookupAll_error _ _ _ hl
    have hcon2 : (Except.error (PyErr.keyError v) :
        Except PyErr (List ℕ × List String)) = .error (.exception msg) := hcon
    simp at hcon2
  | ok idc =>
    rw [hl] at hcon
    have hcon2 : (match fancyIndex handles idc with
        | .error e => (Except.error e : Except PyErr (List ℕ × List String))
        | .ok hs => .ok (hs, orderItems (.str s))) =
          .error (.exception msg) := hcon
    cases hf : fancyIndex handles idc with
    | error e =>
      rw [hf] at hcon2
      have he := fancyIndex_error _ _ _ hf
      subst he
      have hcon3 : (Except.error PyErr.indexError :
          Except PyErr (List ℕ × List String)) = .error (.exception msg) := hcon2
      simp at hcon3
    | ok hs =>
      rw [hf] at hcon2
      have hcon3 : (Except.ok (hs, orderItems (.str s)) :
          Except PyErr (List ℕ × List String)) = .error (.exception msg) := hcon2
      simp at hcon3

/-- C10: for every string `order` other than `"default"`, `"reverse"` and
`"desc"`, `custom_legend` never raises its `Exception("Invalid Order")`:
strings are `Iterable`, so the caller-supplied-ordering branch handles
them, treating the characters of the string as requested legend labels; and
whenever some character is not an existing legend label, the dict lookup
raises a `KeyError` for such a character. -/
theorem custom_legend_string_order (ax_lines : List AxLine)
    (oloc : Option String) (t : String) (lw : ℕ) (s : String)
    (h1 : s ≠ "default") (h2 : s ≠ "reverse") (h3 : s ≠ "desc") :
    (∀ msg, DataViz.custom_legend ax_lines oloc (.str s) t lw ≠
      .error (.exception msg)) ∧
    ((∃ v ∈ orderItems (.str s), v ∉ (getLegendHandlesLabels ax_lines).2) →
      ∃ v ∈ orderItems (.str s), v ∉ (getLegendHandlesLabels ax_lines).2 ∧
        DataViz.custom_legend ax_lines oloc (.str s) t lw =
          .error (.keyError v)) := by
  constructor
  · intro msg hcon
    rw [custom_legend_eq] at hcon
    cases hr : reorderHandlesLabels ax_lines (getLegendHandlesLabels ax_lines).1
        (getLegendHandlesLabels ax_lines).2 (.str s) with
    | error e =>
      rw [hr] at hcon
      have hcon2 : (Except.error e : Except PyErr LegendSpec) =
          .error (.exception msg) := hcon
      cases hcon2
      exact reorder_str_other_no_exception ax_lines _ _ s h1 h2 h3 msg hr
    | ok p =>
      rw [hr] at hcon
      have hcon2 : applyOutsideLoc p.1 p.2 oloc t lw =
          .error (.exception msg) := hcon
      exact applyOutsideLoc_no_exception _ _ oloc t lw msg hcon2
  · rintro ⟨v, hv, hnotin⟩
    obtain ⟨w, hw, hwnone, herr⟩ := lookupAll_first_missing _ _
      ⟨v, hv, (value_to_index_none_iff _ _).mpr hnotin⟩
    refine ⟨w, hw, (value_to_index_none_iff _ _).mp hwnone, ?_⟩
    rw [custom_legend_eq, reorder_str_other ax_lines _ _ s h1 h2 h3, herr]

/-- Witness for `custom_legend_string_order`: one line labelled `A` and the
order string `"AZ"` (not one of the three recognised values) never reaches
the `Invalid Order` branch. -/
theorem custom_legend_string_order_witness :
    DataViz.custom_legend [{ label := "A", ydata := [1] }] none
        (.str "AZ") "" 2 ≠ .error (.exception "Invalid Order") :=
  (custom_legend_string_order [{ label := "A", ydata := [1] }] none "" 2 "AZ"
    (by decide) (by decide) (by decide)).1 "Invalid Order"

/-! ## Claim about the duplicated definitions -/

/-- C8: every function defined in more than one source file
(`time_overlay_plot`, `grid_plot` in `data_viz.py` and `plots.py`;
`custom_legend`, `build_colormap` in `data_viz.py` and `utilities.py`;
`show_all_xticks`, `comma_formatter` in `utilities.py` and `format.py`)
is behaviorally identical across its copies: the embedded functions are
equal outright, so on every input the copies return equal results and fail
with the same exception. -/
theorem duplicated_definitions_agree :
    DataViz.time_overlay_plot = Plots.time_overlay_plot ∧
    DataViz.grid_plot = Plots.grid_plot ∧
    DataViz.custom_legend = Utilities.custom_legend ∧
    DataViz.build_colormap = Utilities.build_colormap ∧
    Utilities.show_all_xticks = FormatPy.show_all_xticks ∧
    Utilities.comma_formatter = FormatPy.comma_formatter :=
  ⟨rfl, rfl, rfl, rfl, rfl, rfl⟩

/-! ## Claims about `build_choropleth` -/

theorem build_choropleth_eq (pts : List Geospatial.Pt) (bins mask : ℕ) :
    Geospatial.build_choropleth pts bins mask =
      (List.range bins).flatMap (fun i => (List.range bins).map (fun j =>
        ({ x0 := Geospatial.edgeAt (Geospatial.dataRange
              (pts.map Geospatial.Pt.x)).1
              (Geospatial.dataRange (pts.map Geospatial.Pt.x)).2 bins i,
            x1 := Geospatial.edgeAt (Geospatial.dataRange
              (pts.map Geospatial.Pt.x)).1
              (Geospatial.dataRange (pts.map Geospatial.Pt.x)).2 bins (i + 1),
            y0 := Geospatial.edgeAt (Geospatial.dataRange
              (pts.map Geospatial.Pt.y)).1
              (Geospatial.dataRange (pts.map Geospatial.Pt.y)).2 bins j,
            y1 := Geospatial.edgeAt (Geospatial.dataRange
              (pts.map Geospatial.Pt.y)).1
              (Geospatial.dataRange (pts.map Geospatial.Pt.y)).2 bins (j + 1) },
         if Geospatial.hist2d pts bins i j = mask then none
         else some (Geospatial.hist2d pts bins i j)))) := rfl

theorem countP_flatMap_sum {α β : Type} (p : β → Bool) (l : List α)
    (f : α → List β) :
    (l.flatMap f).countP p = (l.map (fun a => (f a).countP p)).sum := by
  induction l with
  | nil => simp
  | cons a t ih => simp [List.flatMap_cons, List.countP_append, ih]

/-- C3 (amended): `build_choropleth` does *not* omit masked cells from the
output: it emits one row per grid cell, `bins × bins` rows in total, with
the masked cells carrying a `NaN` (here `none`) value instead of a count.
The rows with a real (non-`NaN`) value are exactly as many as the
histogram cells whose count differs from `mask`. -/
theorem build_choropleth_masked_rows (pts : List Geospatial.Pt)
    (bins mask : ℕ) :
    (Geospatial.build_choropleth pts bins mask).length = bins * bins ∧
    ((Geospatial.build_choropleth pts bins mask).filter
        (fun r => r.2.isSome)).length =
      ((List.range bins).flatMap (fun i => (List.range bins).map
        (fun j => Geospatial.hist2d pts bins i j))).countP
          (fun c => decide (c ≠ mask)) := by
  constructor
  · rw [build_choropleth_eq, List.length_flatMap]
    simp [Function.comp_def, List.map_const', List.sum_replicate, mul_comm]
  · rw [← List.countP_eq_length_filter, build_choropleth_eq,
      countP_flatMap_sum, countP_flatMap_sum]
    congr 1
    refine List.map_congr_left ?_
    intro i _
    rw [List.countP_map, List.countP_map]
    refine List.countP_congr ?_
    intro j _
    simp only [Function.comp]
    by_cases hm : Geospatial.hist2d pts bins i j = mask
    · simp [hm]
    · simp [hm]

/-- C3 (counterexample to the claim as stated): two points at opposite
corners with `bins = 2` and `mask = 0` give a histogram with two non-mask
cells, yet the output has `2 × 2 = 4` rows — the two masked cells are
emitted with a `NaN` value, not omitted. -/
theorem build_choropleth_rows_counterexample :
    (Geospatial.build_choropleth [⟨0, 0⟩, ⟨1, 1⟩] 2 0).length = 4 ∧
    ((List.range 2).flatMap (fun i => (List.range 2).map
      (fun j => Geospatial.hist2d [⟨0, 0⟩, ⟨1, 1⟩] 2 i j))).countP
        (fun c => decide (c ≠ 0)) = 2 ∧
    (Geospatial.build_choropleth [⟨0, 0⟩, ⟨1, 1⟩] 2 0).length ≠
      ((List.range 2).flatMap (fun i => (List.range 2).map
        (fun j => Geospatial.hist2d [⟨0, 0⟩, ⟨1, 1⟩] 2 i j))).countP
          (fun c => decide (c ≠ 0)) := by
  have hx : Geospatial.dataRange (List.map Geospatial.Pt.x
      [⟨0, 0⟩, ⟨1, 1⟩]) = (0, 1) := by
    norm_num [Geospatial.dataRange]
  have hy : Geospatial.dataRange (List.map Geospatial.Pt.y
      [⟨0, 0⟩, ⟨1, 1⟩]) = (0, 1) := by
    norm_num [Geospatial.dataRange]
  have hb0 : Geospatial.binIndex 0 1 2 0 = 0 := by
    norm_num [Geospatial.binIndex]
  have hb1 : Geospatial.binIndex 0 1 2 1 = 1 := by
    norm_num [Geospatial.binIndex]
  have h00 : Geospatial.hist2d [⟨0, 0⟩, ⟨1, 1⟩] 2 0 0 = 1 := by
    simp only [Geospatial.hist2d, hx, hy]
    norm_num [List.filter, hb0, hb1]
  have h01 : Geospatial.hist2d [⟨0, 0⟩, ⟨1, 1⟩] 2 0 1 = 0 := by
    simp only [Geospatial.hist2d, hx, hy]
    norm_num [List.filter, hb0, hb1]
  have h10 : Geospatial.hist2d [⟨0, 0⟩, ⟨1, 1⟩] 2 1 0 = 0 := by
    simp only [Geospatial.hist2d, hx, hy]
    norm_num [List.filter, hb0, hb1]
  have h11 : Geospatial.hist2d [⟨0, 0⟩, ⟨1, 1⟩] 2 1 1 = 1 := by
    simp only [Geospatial.hist2d, hx, hy]
    norm_num [List.filter, hb0, hb1]
  have hlist : (List.range 2).flatMap (fun i => (List.range 2).map
      (fun j => Geospatial.hist2d [⟨0, 0⟩, ⟨1, 1⟩] 2 i j)) =
      [Geospatial.hist2d [⟨0, 0⟩, ⟨1, 1⟩] 2 0 0,
       Geospatial.hist2d [⟨0, 0⟩, ⟨1, 1⟩] 2 0 1,
       Geospatial.hist2d [⟨0, 0⟩, ⟨1, 1⟩] 2 1 0,
       Geospatial.hist2d [⟨0, 0⟩, ⟨1, 1⟩] 2 1 1] := rfl
  have hlen : (Geospatial.build_choropleth [⟨0, 0⟩, ⟨1, 1⟩] 2 0).length = 4 := by
    rw [build_choropleth_eq, List.length_flatMap]
    rfl
  have hcount : ((List.range 2).flatMap (fun i => (List.range 2).map
      (fun j => Geospatial.hist2d [⟨0, 0⟩, ⟨1, 1⟩] 2 i j))).countP
        (fun c => decide (c ≠ 0)) = 2 := by
    rw [hlist, h00, h01, h10, h11]
    decide
  exact ⟨hlen, hcount, by rw [hlen, hcount]; decide⟩

theorem foldl_min_le (l : List ℚ) : ∀ v : ℚ, l.foldl min v ≤ v := by
  induction l with
  | nil => intro v; exact le_refl v
  | cons a t ih => intro v; exact (ih (min v a)).trans (min_le_left v a)

theorem le_foldl_max (l : List ℚ) : ∀ v : ℚ, v ≤ l.foldl max v := by
  induction l with
  | nil => intro v; exact le_refl v
  | cons a t ih => intro v; exact (le_max_left v a).trans (ih (max v a))

theorem dataRange_fst_lt_snd (vs : List ℚ) :
    (Geospatial.dataRange vs).1 < (Geospatial.dataRange vs).2 := by
  cases vs with
  | nil =>
    show (0 : ℚ) < 1
    norm_num
  | cons v rest =>
    have hd : Geospatial.dataRange (v :: rest) =
        (if rest.foldl min v = rest.foldl max v
         then (rest.foldl min v - 1/2, rest.foldl max v + 1/2)
         else (rest.foldl min v, rest.foldl max v)) := rfl
    rw [hd]
    by_cases h : rest.foldl min v = rest.foldl max v
    · rw [if_pos h]
      show rest.foldl min v - 1/2 < rest.foldl max v + 1/2
      rw [h]
      linarith
    · rw [if_neg h]
      show rest.foldl min v < rest.foldl max v
      exact lt_of_le_of_ne ((foldl_min_le rest v).trans (le_foldl_max rest v)) h

theorem edgeAt_le (lo hi : ℚ) (bins : ℕ) (hle : lo ≤ hi) {k k2 : ℕ}
    (hk : k ≤ k2) :
    Geospatial.edgeAt lo hi bins k ≤ Geospatial.edgeAt lo hi bins k2 := by
  unfold Geospatial.edgeAt
  have h1 : (k : ℚ) ≤ (k2 : ℚ) := Nat.cast_le.mpr hk
  have h2 : (0 : ℚ) ≤ hi - lo := by linarith
  have h3 : (k : ℚ) * (hi - lo) ≤ (k2 : ℚ) * (hi - lo) :=
    mul_le_mul_of_nonneg_right h1 h2
  rcases Nat.eq_zero_or_pos bins with hb | hb
  · subst hb
    norm_num
  · have hbq : (0 : ℚ) < (bins : ℚ) := by exact_mod_cast hb
    exact add_le_add_left ((div_le_div_iff_of_pos_right hbq).mpr h3) lo

theorem pairwise_flatMap_of {α β : Type} {l : List α} {f : α → List β}
    {R : β → β → Prop} (h1 : ∀ a ∈ l, (f a).Pairwise R)
    (h2 : l.Pairwise (fun a a2 => ∀ b ∈ f a, ∀ b2 ∈ f a2, R b b2)) :
    (l.flatMap f).Pairwise R := by
  induction l with
  | nil => simp
  | cons a t ih =>
    rw [List.flatMap_cons, List.pairwise_append]
    rcases List.pairwise_cons.mp h2 with ⟨ha, ht⟩
    refine ⟨h1 a (List.mem_cons_self a t),
      ih (fun x hx => h1 x (List.mem_cons_of_mem a hx)) ht, ?_⟩
    intro x hx y hy
    obtain ⟨a2, ha2, hy2⟩ := List.mem_flatMap.mp hy
    exact ha a2 ha2 x hx y hy2

/-- C6: no two of the polygons emitted by `build_choropleth` overlap: any
two distinct output rectangles have disjoint interiors (they can share at
most boundary edges), for every non-empty point set and positive bin
count. -/
theorem build_choropleth_no_overlap (pts : List Geospatial.Pt)
    (bins mask : ℕ) (hpts : pts ≠ []) (hb : 0 < bins) :
    (Geospatial.build_choropleth pts bins mask).Pairwise
      (fun a b => Geospatial.disjointRects a.1 b.1) := by
  rw [build_choropleth_eq]
  have hx := dataRange_fst_lt_snd (pts.map Geospatial.Pt.x)
  have hy := dataRange_fst_lt_snd (pts.map Geospatial.Pt.y)
  apply pairwise_flatMap_of
  · intro i _
    rw [List.pairwise_map]
    refine (List.pairwise_lt_range bins).imp ?_
    intro j j2 hj px py hin1 hin2
    simp only [Geospatial.cellInterior] at hin1 hin2
    obtain ⟨_, _, _, hA⟩ := hin1
    obtain ⟨_, _, hB, _⟩ := hin2
    have hmono := edgeAt_le (Geospatial.dataRange (pts.map Geospatial.Pt.y)).1
      (Geospatial.dataRange (pts.map Geospatial.Pt.y)).2 bins (le_of_lt hy)
      (show j + 1 ≤ j2 by omega)
    linarith
  · refine (List.pairwise_lt_range bins).imp ?_
    intro i i2 hi b hbmem b2 hb2mem
    obtain ⟨j, _, rfl⟩ := List.mem_map.mp hbmem
    obtain ⟨j2, _, rfl⟩ := List.mem_map.mp hb2mem
    intro px py hin1 hin2
    simp only [Geospatial.cellInterior] at hin1 hin2
    obtain ⟨_, hA, _, _⟩ := hin1
    obtain ⟨hB, _, _, _⟩ := hin2
    have hmono := edgeAt_le (Geospatial.dataRange (pts.map Geospatial.Pt.x)).1
      (Geospatial.dataRange (pts.map Geospatial.Pt.x)).2 bins (le_of_lt hx)
      (show i + 1 ≤ i2 by omega)
    linarith

/-- Witness for `build_choropleth_no_overlap`: a single point with one bin. -/
theorem build_choropleth_no_overlap_witness :
    (Geospatial.build_choropleth [⟨0, 0⟩] 1 0).Pairwise
      (fun a b => Geospatial.disjointRects a.1 b.1) :=
  build_choropleth_no_overlap [⟨0, 0⟩] 1 0 (by simp) (by decide)
